import Mathlib

/-!
Verification of the conversation-orchestration and tenant-isolation core of the
WorkHub AI sales-chat service, as a shallow embedding in Lean 4.

The embedding models the relational state as lists of records (one list per
table) plus a fresh-id counter and a logical clock; SQLAlchemy's
`scalar_one_or_none` is modelled by `scalarOneOrNone` (raising, i.e. returning
`Except.error`, when more than one row matches); Python truthiness on strings
(`if status:`) is modelled by explicit `= ""` tests; commits apply the pending
record updates to the state, and error-returning paths that perform no commit
leave the state unchanged (the session rollback in the `except` handlers is
modelled the same way).
-/

/-- Case-insensitive lowering of a string, character by character
(model of Python `str.lower` for the ASCII identifiers used here). -/
def strLower (s : String) : String := ⟨s.data.map Char.toLower⟩

/-- Boolean substring containment on character lists:
`containsSub needle hay = true` iff `needle` occurs contiguously in `hay`.
Models Python's `needle in hay` on strings. -/
def containsSub (needle : List Char) : List Char → Bool
  | [] => needle.isEmpty
  | c :: cs => needle.isPrefixOf (c :: cs) || containsSub needle cs

/-- Python `needle in hay` on strings. -/
def pyIn (needle hay : String) : Bool := containsSub needle.data hay.data

/-- SQL `column ILIKE '%pat%'` on a nullable text column: case-insensitive
substring match; a NULL column never matches. (Wildcard characters inside
`pat` are not given wildcard meaning; the service passes plain names here.) -/
def ilikeContains (column : Option String) (pat : String) : Bool :=
  match column with
  | none => false
  | some s => pyIn (strLower pat) (strLower s)

/-- Model of SQLAlchemy `Result.scalar_one_or_none()`: `none` on zero rows,
the row on exactly one, and a raised `MultipleResultsFound` otherwise. -/
def scalarOneOrNone {α : Type} : List α → Except String (Option α)
  | [] => .ok none
  | [a] => .ok (some a)
  | _ => .error "Multiple rows were found when one or none was required"

/-- Python `str(None)` / f-string interpolation of an optional string. -/
def pyOptStr : Option String → String
  | none => "None"
  | some s => s

/-! ## Data model (app/models) -/

/-- `ConversationStatus` enum (app/models/conversation.py). -/
inductive ConversationStatus
  | active
  | awaiting_human
  | converted
  | lost
  | abandoned
deriving DecidableEq, Repr

/-- `FunnelStage` enum (app/models/conversation.py). -/
inductive FunnelStage
  | awareness
  | interest
  | consideration
  | negotiation
  | closed_won
  | closed_lost
deriving DecidableEq, Repr

/-- `LeadStage` enum (app/models/lead.py). -/
inductive LeadStage
  | cold
  | warm
  | hot
  | qualified
  | converted
deriving DecidableEq, Repr

/-- `MessageRole` enum (app/models/message.py). -/
inductive MessageRole
  | user
  | assistant
  | system
deriving DecidableEq, Repr

/-- `TenantStatus` enum (app/models/tenant.py). -/
inductive TenantStatus
  | active
  | trial
  | suspended
  | cancelled
deriving DecidableEq, Repr

/-- The `.value` string of a `ConversationStatus` member. -/
def statusValue : ConversationStatus → String
  | .active => "active"
  | .awaiting_human => "awaiting_human"
  | .converted => "converted"
  | .lost => "lost"
  | .abandoned => "abandoned"

/-- The `.value` string of a `FunnelStage` member. -/
def funnelValue : FunnelStage → String
  | .awareness => "awareness"
  | .interest => "interest"
  | .consideration => "consideration"
  | .negotiation => "negotiation"
  | .closed_won => "closed_won"
  | .closed_lost => "closed_lost"

/-- A row of the `users` table (app/models/user.py). Ids and timestamps are
modelled as naturals. -/
structure UserR where
  id : Nat
  tenantId : Option Nat
  userKey : String
  name : Option String
  createdAt : Nat
deriving DecidableEq, Repr

/-- A row of the `conversations` table (app/models/conversation.py). -/
structure ConversationR where
  id : Nat
  tenantId : Option Nat
  userId : Nat
  status : ConversationStatus
  funnelStage : FunnelStage
  interestedPlanId : Option Nat
  contextSummary : Option String
  handoffReason : Option String
  handoffRequestedAt : Option Nat
deriving DecidableEq, Repr

/-- A row of the `messages` table (app/models/message.py); the structured
`tool_calls` / `metadata` JSON payloads are not tracked (no claim reads them). -/
structure MessageR where
  conversationId : Nat
  role : MessageRole
  content : String
deriving DecidableEq, Repr

/-- A row of the `leads` table (app/models/lead.py); the `objections` JSON list
is not tracked (no claim reads it). -/
structure LeadR where
  id : Nat
  conversationId : Nat
  userId : Nat
  stage : LeadStage
  score : Int
  preferredPlanId : Option Nat
  nextAction : Option String
deriving DecidableEq, Repr

/-- A row of the `tenants` table (app/models/tenant.py), restricted to the
fields the middleware reads, plus `expiresAt` which it never reads. -/
structure TenantR where
  slug : String
  apiKeyHash : Option String
  status : TenantStatus
  isActive : Bool
  expiresAt : Option Nat
deriving DecidableEq, Repr

/-- The database state seen by the chat service and its tools, together with
the id generator (`uuid4` defaults) and the logical clock (`datetime.utcnow`). -/
structure DB where
  users : List UserR
  conversations : List ConversationR
  messages : List MessageR
  leads : List LeadR
  freshId : Nat
  now : Nat
deriving DecidableEq, Repr

/-- Rows of `conversations` with the given id. -/
def convsWith (db : DB) (cid : Nat) : List ConversationR :=
  db.conversations.filter (fun c => c.id == cid)

/-- Rows of `leads` with the given conversation id. -/
def leadsFor (db : DB) (cid : Nat) : List LeadR :=
  db.leads.filter (fun l => l.conversationId == cid)

/-! ## Agent routing (app/services/auth_service.py, ChatService._get_agent) -/

/-- `is_admin_user` (app/services/auth_service.py): a user is admin iff it has
a truthy stored name that contains (case-insensitively, substring) one of the
configured admin keywords. -/
def isAdminUser (adminKeywords : List String) (user? : Option UserR) : Bool :=
  match user? with
  | none => false
  | some u =>
    match u.name with
    | none => false
    | some nm =>
      -- Python `not user.name` is also true for the empty string
      if nm = "" then false
      else adminKeywords.any (fun kw => pyIn (strLower kw) (strLower nm))

/-- The persona chosen by `ChatService._get_agent`. -/
inductive AgentKind
  | sales
  | admin
deriving DecidableEq, Repr

/-- `ChatService._get_agent`: AdminAgent iff `is_admin_user`, SalesAgent
otherwise. -/
def getAgent (adminKeywords : List String) (u : UserR) : AgentKind :=
  if isAdminUser adminKeywords (some u) then .admin else .sales

/-! ## Lead scoring on handoff (app/tools/handoff_tools.py lines 77-87) -/

/-- The stage/score computation of `request_handoff` (handoff_tools.py 77-87):
negotiation/closed_won give hot(80) when the lowered reason contains
"pronto" or "fechar" and qualified(70) otherwise; consideration gives
warm(60); anything else warm(50). -/
def leadScore (stage : FunnelStage) (reason : String) : LeadStage × Int :=
  if stage = FunnelStage.negotiation ∨ stage = FunnelStage.closed_won then
    if pyIn "pronto" (strLower reason) || pyIn "fechar" (strLower reason) then
      (LeadStage.hot, 80)
    else
      (LeadStage.qualified, 70)
  else if stage = FunnelStage.consideration then
    (LeadStage.warm, 60)
  else
    (LeadStage.warm, 50)

/-- A concrete user with no stored name, for evaluating the admin check. -/
def namelessUser : UserR :=
  { id := 7, tenantId := none, userKey := "u7", name := none, createdAt := 0 }

/-- The default `ADMIN_KEYWORDS` from app/core/config.py. -/
def defaultAdminKeywords : List String :=
  ["admin", "ADMIN", "administrador", "Administrador"]
/-! ## Identity resolution (ChatService.get_or_create_user) -/

/-- Case-insensitive name match used by the fallback lookup of
`ChatService.get_or_create_user`: `User.name ILIKE '%userName%'`. -/
def nameMatches (userName : String) (u : UserR) : Bool :=
  ilikeContains u.name userName

/-- Python `max(users, key=lambda u: u.created_at)` starting from `u`: keeps
the first element attaining the maximal creation timestamp. -/
def maxByCreated (u : UserR) : List UserR → UserR
  | [] => u
  | v :: vs => maxByCreated (if v.createdAt > u.createdAt then v else u) vs

/-- The fresh `User` row built by `get_or_create_user` when no lookup hits:
id from the generator, created now. Note that no tenant id is attached. -/
def newUser (db : DB) (userKey : String) (userName : Option String) : UserR :=
  { id := db.freshId, tenantId := none, userKey := userKey,
    name := userName, createdAt := db.now }

/-- `ChatService.get_or_create_user` (chat_service.py 53-103): (1) exact match
on `user_key` alone - the query carries no tenant filter; (2) otherwise, when a
truthy name is supplied, case-insensitive substring match on stored names,
reusing a unique hit or the most recently created of several; (3) otherwise a
fresh user. Whenever a user is found and a (non-`None`) name is supplied, the
stored name is overwritten and committed. -/
def getOrCreateUser (db : DB) (userKey : String) (userName : Option String) :
    Except String (UserR × DB) :=
  match scalarOneOrNone (db.users.filter (fun u => u.userKey == userKey)) with
  | .error e => .error e
  | .ok byKey =>
    let found : Option UserR :=
      match byKey with
      | some u => some u
      | none =>
        match userName with
        | some nm =>
          -- `if not user and user_name:` - an empty name is falsy, no search
          if nm = "" then none
          else
            match db.users.filter (nameMatches nm) with
            | [] => none
            | [u] => some u
            | u :: us => some (maxByCreated u us)
        | none => none
    match found with
    | none =>
      .ok (newUser db userKey userName,
        { db with users := db.users ++ [newUser db userKey userName],
                  freshId := db.freshId + 1 })
    | some u =>
      match userName with
      | some nm =>
        -- `if user_name is not None:` - the stored name is always synced
        let u' : UserR := { u with name := some nm }
        .ok (u', { db with users := db.users.map (fun v => if v.id == u.id then u' else v) })
      | none => .ok (u, db)

/-! ## Conversation lookup/creation (ChatService.get_or_create_conversation) -/

/-- The fresh `Conversation` row built by `get_or_create_conversation`:
defaults (active, awareness). Note that no tenant id is attached. -/
def newConversation (db : DB) (userId : Nat) : ConversationR :=
  { id := db.freshId, tenantId := none, userId := userId,
    status := ConversationStatus.active, funnelStage := FunnelStage.awareness,
    interestedPlanId := none, contextSummary := none,
    handoffReason := none, handoffRequestedAt := none }

/-- `ChatService.get_or_create_conversation` (chat_service.py 105-127): looks
the conversation up by bare id (no tenant or user filter); an unknown or
absent id falls through to creation. -/
def getOrCreateConversation (db : DB) (userId : Nat) (convId? : Option Nat) :
    Except String (ConversationR × DB) :=
  match convId? with
  | some cid =>
    match scalarOneOrNone (convsWith db cid) with
    | .error e => .error e
    | .ok (some c) => .ok (c, db)
    | .ok none =>
      .ok (newConversation db userId,
        { db with conversations := db.conversations ++ [newConversation db userId],
                  freshId := db.freshId + 1 })
  | none =>
    .ok (newConversation db userId,
      { db with conversations := db.conversations ++ [newConversation db userId],
                freshId := db.freshId + 1 })

/-! ## Message persistence and orchestration (ChatService) -/

/-- `ChatService.save_message`: appends one message row (the serialized
`tool_calls` payload is not tracked; no claim reads it). -/
def saveMessage (db : DB) (cid : Nat) (role : MessageRole) (content : String) : DB :=
  { db with messages := db.messages ++ [⟨cid, role, content⟩] }

/-- The fixed transferred-to-human notice built in `process_message`
(chat_service.py 300-305), interpolating the stored handoff reason the way
the f-string does (`None` prints as "None"). -/
def blockedNotice (reason : Option String) : String :=
  "🔒 Esta conversa foi transferida para atendimento humano.\n\n" ++
  "Motivo: " ++ pyOptStr reason ++ "\n\n" ++
  "Um membro da nossa equipe entrará em contato em breve. " ++
  "Sua mensagem foi registrada e será visualizada pelo atendente."

/-- The result of the opaque external agent invocation: its output text and
the database as mutated by whatever tools it called. -/
structure AgentResult where
  output : String
  db : DB

/-- The response dictionary of `ChatService.process_message`. On the blocked
path the code also includes `blocked: true` and the stored handoff reason; on
the normal path those keys are absent, modelled as `false` / `none`. -/
structure ChatOutcome where
  response : String
  conversationId : Nat
  userId : Nat
  funnelStage : String
  status : String
  blocked : Bool
  handoffReason : Option String
deriving DecidableEq, Repr

/-- `ChatService.process_message` (chat_service.py 259-399), with the LLM agent
as an opaque function of the database and the inbound text. The final `Bool`
of the result records whether the agent path was taken (an agent selected and
invoked). History retrieval and filtering (lines 321-330) only shape the
opaque agent's input and are folded into `agent`. -/
def processMessage (agent : DB → String → AgentResult) (db : DB)
    (message userKey : String) (convId? : Option Nat) (userName? : Option String) :
    Except String (ChatOutcome × DB × Bool) :=
  match getOrCreateUser db userKey userName? with
  | .error e => .error e
  | .ok (user, db1) =>
    match getOrCreateConversation db1 user.id convId? with
    | .error e => .error e
    | .ok (conv, db2) =>
      if statusValue conv.status == "awaiting_human" then
        -- gate: the inbound message is still persisted, then the fixed notice
        -- is returned without selecting or invoking any agent
        .ok ({ response := blockedNotice conv.handoffReason,
               conversationId := conv.id, userId := user.id,
               funnelStage := funnelValue conv.funnelStage,
               status := "awaiting_human", blocked := true,
               handoffReason := conv.handoffReason },
             saveMessage db2 conv.id MessageRole.user message, false)
      else
        let db3 := saveMessage db2 conv.id MessageRole.user message
        let ar := agent db3 message
        let db4 := saveMessage ar.db conv.id MessageRole.assistant ar.output
        match scalarOneOrNone (convsWith db4 conv.id) with
        | .error e => .error e
        | .ok updated? =>
          .ok ({ response := ar.output, conversationId := conv.id,
                 userId := user.id,
                 funnelStage :=
                   match updated? with
                   | some u => funnelValue u.funnelStage
                   | none => funnelValue conv.funnelStage,
                 status :=
                   match updated? with
                   | some u => statusValue u.status
                   | none => "active",
                 blocked := false, handoffReason := none }, db4, true)

/-! ## Conversation tools (app/tools/conversation_tools.py) -/

/-- Result of `update_conversation_status`, one constructor per return site. -/
inductive UpdateResult
  | ok (status stage : String)
  | invalidStatus (tok : String)
  | invalidFunnelStage (tok : String)
  | notFound
  | raised (msg : String)
deriving DecidableEq, Repr

/-- `ConversationStatus(token.lower())`: enum member lookup by value string. -/
def parseConversationStatus (s : String) : Option ConversationStatus :=
  let t := strLower s
  if t = "active" then some ConversationStatus.active
  else if t = "awaiting_human" then some ConversationStatus.awaiting_human
  else if t = "converted" then some ConversationStatus.converted
  else if t = "lost" then some ConversationStatus.lost
  else if t = "abandoned" then some ConversationStatus.abandoned
  else none

/-- `FunnelStage(token.lower())`: enum member lookup by value string. -/
def parseFunnelStage (s : String) : Option FunnelStage :=
  let t := strLower s
  if t = "awareness" then some FunnelStage.awareness
  else if t = "interest" then some FunnelStage.interest
  else if t = "consideration" then some FunnelStage.consideration
  else if t = "negotiation" then some FunnelStage.negotiation
  else if t = "closed_won" then some FunnelStage.closed_won
  else if t = "closed_lost" then some FunnelStage.closed_lost
  else none

/-- The `if status:` block of `update_conversation_status`: skipped for an
absent (or falsy empty) token, assigns the parsed enum member, or fails. -/
def applyStatus (conv : ConversationR) (tok : Option String) :
    Except UpdateResult ConversationR :=
  match tok with
  | none => .ok conv
  | some s =>
    if s = "" then .ok conv
    else
      match parseConversationStatus s with
      | some st => .ok { conv with status := st }
      | none => .error (.invalidStatus s)

/-- The `if funnel_stage:` block of `update_conversation_status`. -/
def applyFunnel (conv : ConversationR) (tok : Option String) :
    Except UpdateResult ConversationR :=
  match tok with
  | none => .ok conv
  | some s =>
    if s = "" then .ok conv
    else
      match parseFunnelStage s with
      | some st => .ok { conv with funnelStage := st }
      | none => .error (.invalidFunnelStage s)

/-- The SQLAlchemy session this tool runs in: `db` is the committed database
state and `dirty` the session's in-memory view, which may hold pending
(uncommitted) attribute assignments to loaded rows. Queries read through the
session view; `commit` persists the view, `rollback` discards it. -/
structure Session where
  db : DB
  dirty : DB
deriving DecidableEq, Repr

/-- A session with nothing pending, as at the start of a request. -/
def cleanSession (db : DB) : Session := { db := db, dirty := db }

/-- `db.commit()`: the pending assignments become the committed state. -/
def sessionCommit (s : Session) : Session := { db := s.dirty, dirty := s.dirty }

/-- `db.rollback()`: the pending assignments are discarded. -/
def sessionRollback (s : Session) : Session := { db := s.db, dirty := s.db }

/-- An attribute assignment to the loaded conversation row
(`conversation.status = ...` on the session-attached ORM object): it changes
the session view only, pending until some commit flushes it. -/
def assignConv (d : DB) (cid : Nat) (conv' : ConversationR) : DB :=
  { d with conversations := d.conversations.map (fun c => if c.id == cid then conv' else c) }

/-- `update_conversation_status` (conversation_tools.py 115-182) on a parsed
conversation id (the string-form prelude - empty id, placeholder id, malformed
UUID - returns an error before touching the database and is elided). The enum
constructor raises BEFORE the corresponding assignment, so an invalid status
token mutates nothing; but a valid (or absent) status token is processed and
assigned to the session object before the funnel token is parsed, and the
invalid-funnel return performs neither commit nor rollback - the pending
status assignment stays in the session, to be flushed by whatever commits the
enclosing request issues later (for an absent/empty status token the written
row is unchanged, so the pending write is content-identical). Only the
`except` handler rolls back; the success path commits. -/
def updateConversationStatus (s : Session) (cid : Nat)
    (statusTok funnelTok : Option String) : UpdateResult × Session :=
  match scalarOneOrNone (convsWith s.dirty cid) with
  | .error e => (.raised e, sessionRollback s)
  | .ok none => (.notFound, s)
  | .ok (some conv) =>
    match applyStatus conv statusTok with
    | .error r => (r, s)
    | .ok conv1 =>
      match applyFunnel conv1 funnelTok with
      | .error r => (r, { s with dirty := assignConv s.dirty cid conv1 })
      | .ok conv2 =>
        (.ok (statusValue conv2.status) (funnelValue conv2.funnelStage),
         sessionCommit { s with dirty := assignConv s.dirty cid conv2 })

/-! ## Handoff tool (app/tools/handoff_tools.py) -/

/-- Result of `request_handoff`, one constructor per return site. -/
inductive HandoffResult
  | ok (conversationId : Nat) (reason : String)
  | error (msg : String)
deriving DecidableEq, Repr

/-- The `next_action` text written by `request_handoff`. -/
def handoffNextAction (reason : String) : String :=
  "Handoff solicitado: " ++ reason

/-- The system message appended by `request_handoff` (its JSON metadata
payload is not tracked). -/
def handoffSystemMessage (cid : Nat) (reason summary : String) : MessageR :=
  { conversationId := cid, role := MessageRole.system,
    content := "🔄 Transferência solicitada para atendimento humano.\n\n" ++
      "Motivo: " ++ reason ++ "\n\nResumo: " ++ summary }

/-- The updated row written by `request_handoff` into the found conversation:
status forced to awaiting_human, reason and timestamp recorded, summary
overwritten. No check of the current status precedes this assignment. -/
def handoffConversation (conv : ConversationR) (reason summary : String)
    (now : Nat) : ConversationR :=
  { conv with
    status := ConversationStatus.awaiting_human
    handoffReason := some reason
    handoffRequestedAt := some now
    contextSummary := some summary }

/-- The lead-row update applied by `request_handoff` when a lead already
exists for the conversation: stage and next-action overwritten, score kept at
the max of old and newly computed, preferred plan overwritten only when the
conversation has one. -/
def updatedLead (l : LeadR) (stageScore : LeadStage × Int)
    (preferredPlanId : Option Nat) (reason : String) : LeadR :=
  { l with
    stage := stageScore.1
    score := max l.score stageScore.2
    nextAction := some (handoffNextAction reason)
    preferredPlanId :=
      match preferredPlanId with
      | some p => some p
      | none => l.preferredPlanId }

/-- The fresh lead row created by `request_handoff` when none exists for the
conversation. -/
def newLead (db : DB) (cid : Nat) (conv : ConversationR)
    (stageScore : LeadStage × Int) (reason : String) : LeadR :=
  { id := db.freshId, conversationId := cid, userId := conv.userId,
    stage := stageScore.1, score := stageScore.2,
    preferredPlanId := conv.interestedPlanId,
    nextAction := some (handoffNextAction reason) }

/-- `request_handoff` (handoff_tools.py 24-137): looks the conversation up by
bare id; when absent, returns the not-found error before any mutation; when
found, marks it awaiting_human, appends the system message, and upserts the
lead keyed by conversation id, all committed together at the end. Raising
paths (`scalar_one_or_none` on several rows) hit the `except` handler, which
rolls the session back, leaving the store unchanged. -/
def requestHandoff (db : DB) (cid : Nat) (reason summary : String) :
    HandoffResult × DB :=
  match scalarOneOrNone (convsWith db cid) with
  | .error e => (.error e, db)
  | .ok none => (.error "Conversation not found", db)
  | .ok (some conv) =>
    match scalarOneOrNone (leadsFor db cid) with
    | .error e => (.error e, db)
    | .ok existing =>
      let stageScore := leadScore conv.funnelStage reason
      let leadsAndFresh : List LeadR × Nat :=
        match existing with
        | some l =>
          (db.leads.map (fun x =>
             if x.id == l.id then
               updatedLead l stageScore conv.interestedPlanId reason
             else x),
           db.freshId)
        | none =>
          (db.leads ++ [newLead db cid conv stageScore reason], db.freshId + 1)
      (.ok cid reason,
       { db with
         conversations := db.conversations.map
           (fun c => if c.id == cid then handoffConversation conv reason summary db.now else c),
         messages := db.messages ++ [handoffSystemMessage cid reason summary],
         leads := leadsAndFresh.1,
         freshId := leadsAndFresh.2 })

/-! ## Tenant middleware (app/middleware/tenant.py) -/

/-- Outcome of `TenantMiddleware._validate_tenant_headers`, one constructor
per raise/return site (the comments give the HTTP status the middleware maps
each failure to). -/
inductive TenantAuthResult
  | ok (t : TenantR)
  | missingTenantHeader                -- 400, X-Tenant-ID header absent
  | missingApiKeyHeader                -- 400, X-API-Key header absent
  | tenantNotFound (slug : String)     -- 404
  | tenantNotActive (slug : String)    -- 403, status is not active
  | tenantDeactivated (slug : String)  -- 403, is_active flag cleared
  | noApiKeyConfigured (slug : String) -- 403, no stored credential hash
  | invalidApiKey                      -- 401, bcrypt mismatch
  | internalError (msg : String)       -- 500, unexpected exception
deriving DecidableEq, Repr

/-- `TenantMiddleware._validate_tenant_headers` (middleware/tenant.py 95-160).
`checkpw` abstracts `bcrypt.checkpw` over the stored hash. A missing and an
empty header are both falsy in `if not tenant_slug:`. Note the function never
reads `expires_at`. -/
def validateTenantHeaders (checkpw : String → String → Bool)
    (tenants : List TenantR) (tenantSlugHeader apiKeyHeader : Option String) :
    TenantAuthResult :=
  match tenantSlugHeader with
  | none => .missingTenantHeader
  | some slug =>
    if slug = "" then .missingTenantHeader
    else
      match apiKeyHeader with
      | none => .missingApiKeyHeader
      | some apiKey =>
        if apiKey = "" then .missingApiKeyHeader
        else
          match scalarOneOrNone (tenants.filter (fun t => t.slug == slug)) with
          | .error e => .internalError e
          | .ok none => .tenantNotFound slug
          | .ok (some tenant) =>
            if tenant.status ≠ TenantStatus.active then .tenantNotActive slug
            else if ¬ tenant.isActive then .tenantDeactivated slug
            else
              match tenant.apiKeyHash with
              | none => .noApiKeyConfigured slug
              | some h =>
                if checkpw apiKey h then .ok tenant else .invalidApiKey

/-! ## Helper state builders -/

/-- The database state after `get_or_create_user` syncs the found user's
stored name (the committed write of chat_service.py 90-94). -/
def dbWithSyncedName (db : DB) (u : UserR) (nm : String) : DB :=
  { db with users := db.users.map (fun v => if v.id == u.id then { u with name := some nm } else v) }

/-- The database state after `get_or_create_user` inserts a fresh user. -/
def dbWithNewUser (db : DB) (key : String) (nm? : Option String) : DB :=
  { db with users := db.users ++ [newUser db key nm?], freshId := db.freshId + 1 }

/-- The response dictionary returned on the awaiting_human gate path of
`process_message`. -/
def blockedOutcome (user : UserR) (conv : ConversationR) : ChatOutcome :=
  { response := blockedNotice conv.handoffReason
    conversationId := conv.id
    userId := user.id
    funnelStage := funnelValue conv.funnelStage
    status := "awaiting_human"
    blocked := true
    handoffReason := conv.handoffReason }

/-- The committed database state of a handoff that created a fresh lead. -/
def dbAfterHandoffCreate (db : DB) (cid : Nat) (conv : ConversationR)
    (reason summary : String) : DB :=
  { db with
    conversations := db.conversations.map
      (fun c => if c.id == cid then handoffConversation conv reason summary db.now else c)
    messages := db.messages ++ [handoffSystemMessage cid reason summary]
    leads := db.leads ++ [newLead db cid conv (leadScore conv.funnelStage reason) reason]
    freshId := db.freshId + 1 }

/-- The committed database state of a handoff that updated an existing lead. -/
def dbAfterHandoffUpdate (db : DB) (cid : Nat) (conv : ConversationR) (l : LeadR)
    (reason summary : String) : DB :=
  { db with
    conversations := db.conversations.map
      (fun c => if c.id == cid then handoffConversation conv reason summary db.now else c)
    messages := db.messages ++ [handoffSystemMessage cid reason summary]
    leads := db.leads.map
      (fun x => if x.id == l.id then updatedLead l (leadScore conv.funnelStage reason) conv.interestedPlanId reason else x)
    freshId := db.freshId }

/-! ## Concrete fixtures for witnesses and counterexamples -/

/-- Tenant 1's stored user for external key "k". -/
def t1User : UserR :=
  { id := 1, tenantId := some 1, userKey := "k", name := some "Alice", createdAt := 0 }

/-- A store holding only tenant 1's user; a request authenticated as tenant 2
then resolves the same external key through the chat service. -/
def crossDB : DB :=
  { users := [t1User], conversations := [], messages := [], leads := [],
    freshId := 10, now := 5 }

/-- A user fixture for the gate-check scenario. -/
def gateUser : UserR :=
  { id := 21, tenantId := none, userKey := "uk", name := some "Bob", createdAt := 0 }

/-- A conversation already transferred to a human, with a stored reason. -/
def gateConv : ConversationR :=
  { id := 3, tenantId := none, userId := 21,
    status := ConversationStatus.awaiting_human, funnelStage := FunnelStage.interest,
    interestedPlanId := none, contextSummary := none,
    handoffReason := some "duvida complexa", handoffRequestedAt := some 2 }

/-- Store for the gate-check scenario. -/
def gateDB : DB :=
  { users := [gateUser], conversations := [gateConv], messages := [], leads := [],
    freshId := 50, now := 7 }

/-- An agent stub that echoes and leaves the store untouched (the gate path
must never reach it). -/
def noToolAgent : DB → String → AgentResult :=
  fun d _ => { output := "ok", db := d }

/-- An active conversation in negotiation, for the tool fixtures. -/
def activeConv : ConversationR :=
  { id := 1, tenantId := none, userId := 2,
    status := ConversationStatus.active, funnelStage := FunnelStage.negotiation,
    interestedPlanId := none, contextSummary := none,
    handoffReason := none, handoffRequestedAt := none }

/-- Store holding only `activeConv`, with no leads. -/
def toolDB : DB :=
  { users := [], conversations := [activeConv], messages := [], leads := [],
    freshId := 100, now := 9 }

/-- A conversation already in the terminal status converted. -/
def terminalConv : ConversationR :=
  { id := 1, tenantId := none, userId := 2,
    status := ConversationStatus.converted, funnelStage := FunnelStage.closed_won,
    interestedPlanId := none, contextSummary := none,
    handoffReason := none, handoffRequestedAt := none }

/-- Store holding only `terminalConv`. -/
def terminalDB : DB :=
  { users := [], conversations := [terminalConv], messages := [], leads := [],
    freshId := 5, now := 9 }

/-- First user named "Ana Silva", created at time 1. -/
def ana1 : UserR :=
  { id := 31, tenantId := none, userKey := "wa_1", name := some "Ana Silva", createdAt := 1 }

/-- Second user named "Ana Silva", created at time 2. -/
def ana2 : UserR :=
  { id := 32, tenantId := none, userKey := "wa_2", name := some "Ana Silva", createdAt := 2 }

/-- Store holding both "Ana Silva" users. -/
def anaDB : DB :=
  { users := [ana1, ana2], conversations := [], messages := [], leads := [],
    freshId := 40, now := 9 }

/-- A tenant whose expiry timestamp is already in the past while its status is
still active and its active flag set. -/
def expiredTenant : TenantR :=
  { slug := "acme", apiKeyHash := some "HASH", status := TenantStatus.active,
    isActive := true, expiresAt := some 0 }

/-- A credential checker accepting exactly the pair ("secret", "HASH"),
standing in for `bcrypt.checkpw`. -/
def cexCheckpw (key h : String) : Bool := key == "secret" && h == "HASH"

/-- A store with no rows at all. -/
def emptyDB : DB :=
  { users := [], conversations := [], messages := [], leads := [],
    freshId := 0, now := 0 }

/-! # Theorems -/

/-! ## Supporting lemmas -/

/-- A list with no `p`-element is untouched by replace-where-`p`. -/
theorem map_replace_of_filter_nil {α : Type} (p : α → Bool) (c' : α) :
    ∀ l : List α, l.filter p = [] →
      l.map (fun x => if p x then c' else x) = l := by
  intro l
  induction l with
  | nil => intro _; rfl
  | cons a t ih =>
    intro h
    rw [List.filter_cons] at h
    by_cases hpa : p a
    · simp [hpa] at h
    · simp only [List.map_cons, hpa, if_neg, Bool.false_eq_true, not_false_iff, ite_false]
      rw [ih (by simpa [hpa] using h)]

/-- Replacing the unique `p`-element of a list leaves the replacement as the
unique `p`-element (provided the replacement still satisfies `p`). -/
theorem filter_map_replace {α : Type} (p : α → Bool) (c' : α) (hp : p c' = true) :
    ∀ (l : List α) (c : α), l.filter p = [c] →
      (l.map (fun x => if p x then c' else x)).filter p = [c'] := by
  intro l
  induction l with
  | nil => intro c h; simp at h
  | cons a t ih =>
    intro c h
    rw [List.filter_cons] at h
    by_cases hpa : p a
    · rw [if_pos hpa] at h
      have h1 : a = c := List.head_eq_of_cons_eq h
      have h2 : t.filter p = [] := List.tail_eq_of_cons_eq h
      simp only [List.map_cons, hpa, ite_true, List.filter_cons, hp]
      rw [map_replace_of_filter_nil p c' t h2, h2]
    · rw [if_neg hpa] at h
      simp only [List.map_cons, hpa, Bool.false_eq_true, not_false_iff, ite_false,
        List.filter_cons]
      exact ih c h

/-- Elements of a list with an empty `q`-filter that are forced to equal a
`q`-positive element on id-collision never collide, so the id-replacement map
is the identity there. -/
theorem lead_map_id_of_filter_nil (cid : Nat) (nl l2 : LeadR)
    (hq : nl.conversationId = cid) :
    ∀ t : List LeadR, t.filter (fun x => x.conversationId == cid) = [] →
      (∀ x ∈ t, x.id = nl.id → x = nl) →
      t.map (fun x => if x.id == nl.id then l2 else x) = t := by
  intro t
  induction t with
  | nil => intro _ _; rfl
  | cons a t ih =>
    intro hf hid
    rw [List.filter_cons] at hf
    by_cases hqa : (a.conversationId == cid) = true
    · simp [hqa] at hf
    · have ha : (a.id == nl.id) = false := by
        rw [beq_eq_false_iff_ne]
        intro hcol
        have h1 : a = nl := hid a (by simp) hcol
        rw [h1] at hqa
        exact hqa (by simp [hq])
      have hhead : (if (a.id == nl.id) = true then l2 else a) = a := by simp [ha]
      rw [List.map_cons, hhead,
        ih (by simpa [hqa] using hf) (fun x hx h => hid x (by simp [hx]) h)]

/-- Replacing the unique lead of a conversation by id leaves the replacement
as the conversation's unique lead, provided no other row shares the id. -/
theorem lead_filter_map_replace (cid : Nat) (nl l2 : LeadR)
    (hl2 : l2.conversationId = cid) (hnl : nl.conversationId = cid) :
    ∀ l : List LeadR, l.filter (fun x => x.conversationId == cid) = [nl] →
      (∀ x ∈ l, x.id = nl.id → x = nl) →
      (l.map (fun x => if x.id == nl.id then l2 else x)).filter
        (fun x => x.conversationId == cid) = [l2] := by
  intro l
  induction l with
  | nil => intro h _; simp at h
  | cons a t ih =>
    intro h hid
    rw [List.filter_cons] at h
    by_cases hqa : (a.conversationId == cid) = true
    · rw [if_pos hqa] at h
      have h1 : a = nl := List.head_eq_of_cons_eq h
      have h2 : t.filter (fun x => x.conversationId == cid) = [] :=
        List.tail_eq_of_cons_eq h
      have hhead : (if (a.id == nl.id) = true then l2 else a) = l2 := by simp [h1]
      rw [List.map_cons, hhead, List.filter_cons,
        lead_map_id_of_filter_nil cid nl l2 hnl t h2
          (fun x hx hxx => hid x (by simp [hx]) hxx), h2]
      simp [hl2]
    · rw [if_neg hqa] at h
      have ha : (a.id == nl.id) = false := by
        rw [beq_eq_false_iff_ne]
        intro hcol
        have h1 : a = nl := hid a (by simp) hcol
        rw [h1] at hqa
        exact hqa (by simp [hnl])
      have hhead : (if (a.id == nl.id) = true then l2 else a) = a := by simp [ha]
      rw [List.map_cons, hhead, List.filter_cons, if_neg hqa]
      exact ih h (fun x hx hxx => hid x (by simp [hx]) hxx)

/-- `maxByCreated` picks an element of the candidate list. -/
theorem maxByCreated_mem : ∀ (l : List UserR) (u : UserR),
    maxByCreated u l ∈ u :: l := by
  intro l
  induction l with
  | nil => intro u; simp [maxByCreated]
  | cons v vs ih =>
    intro u
    rw [maxByCreated]
    by_cases hc : v.createdAt > u.createdAt
    · rw [if_pos hc]
      rcases List.mem_cons.mp (ih v) with h' | h' <;> simp [h']
    · rw [if_neg hc]
      rcases List.mem_cons.mp (ih u) with h' | h' <;> simp [h']

/-- `maxByCreated` attains the maximal creation timestamp of its candidates. -/
theorem maxByCreated_ge : ∀ (l : List UserR) (u v : UserR), v ∈ u :: l →
    v.createdAt ≤ (maxByCreated u l).createdAt := by
  intro l
  induction l with
  | nil =>
    intro u v hv
    rw [List.mem_singleton] at hv
    rw [hv, maxByCreated]
  | cons w ws ih =>
    intro u v hv
    rw [maxByCreated]
    rcases List.mem_cons.mp hv with h | hv'
    · have h1 : u.createdAt ≤ (if w.createdAt > u.createdAt then w else u).createdAt := by
        by_cases hc : w.createdAt > u.createdAt
        · rw [if_pos hc]; omega
        · rw [if_neg hc]
      rw [h]
      exact le_trans h1 (ih _ _ (List.mem_cons_self _ _))
    · rcases List.mem_cons.mp hv' with h | h
      · have h1 : w.createdAt ≤ (if w.createdAt > u.createdAt then w else u).createdAt := by
          by_cases hc : w.createdAt > u.createdAt
          · rw [if_pos hc]
          · rw [if_neg hc]; omega
        rw [h]
        exact le_trans h1 (ih _ _ (List.mem_cons_self _ _))
      · exact ih _ _ (List.mem_cons_of_mem _ h)

/-- `get_or_create_user` never touches the conversation, message or lead
tables. -/
theorem getOrCreateUser_tables (db : DB) (k : String) (nm? : Option String)
    (u : UserR) (db' : DB) (h : getOrCreateUser db k nm? = .ok (u, db')) :
    db'.conversations = db.conversations ∧ db'.messages = db.messages ∧
    db'.leads = db.leads := by
  unfold getOrCreateUser at h
  rcases hk : scalarOneOrNone (db.users.filter (fun v => v.userKey == k)) with e | byKey
  · rw [hk] at h; exact absurd h (by simp)
  · rw [hk] at h
    rcases byKey with _ | v
    · rcases nm? with _ | nm
      · simp only [Except.ok.injEq, Prod.mk.injEq] at h
        rw [← h.2]
        exact ⟨rfl, rfl, rfl⟩
      · by_cases hnm : nm = ""
        · rw [hnm] at h
          simp only [ite_true] at h
          simp only [Except.ok.injEq, Prod.mk.injEq] at h
          rw [← h.2]
          exact ⟨rfl, rfl, rfl⟩
        · simp only [hnm, ite_false] at h
          rcases hby : db.users.filter (nameMatches nm) with _ | ⟨u0, us⟩
          · rw [hby] at h
            simp only [Except.ok.injEq, Prod.mk.injEq] at h
            rw [← h.2]
            exact ⟨rfl, rfl, rfl⟩
          · rw [hby] at h
            rcases us with _ | ⟨u1, us'⟩ <;>
              · simp only [Except.ok.injEq, Prod.mk.injEq] at h
                rw [← h.2]
                exact ⟨rfl, rfl, rfl⟩
    · rcases nm? with _ | nm <;>
        · simp only [Except.ok.injEq, Prod.mk.injEq] at h
          rw [← h.2]
          exact ⟨rfl, rfl, rfl⟩

/-- Characterization of `request_handoff` when the conversation exists and no
lead does yet: a fresh lead is created. -/
theorem requestHandoff_create (db : DB) (cid : Nat) (r s : String)
    (conv : ConversationR)
    (hconv : convsWith db cid = [conv]) (hnolead : leadsFor db cid = []) :
    requestHandoff db cid r s = (.ok cid r, dbAfterHandoffCreate db cid conv r s) := by
  unfold requestHandoff
  rw [hconv, hnolead]
  rfl

/-- Characterization of `request_handoff` when the conversation exists and a
unique lead already does: that lead is updated in place. -/
theorem requestHandoff_update (db : DB) (cid : Nat) (r s : String)
    (conv : ConversationR) (l : LeadR)
    (hconv : convsWith db cid = [conv]) (hlead : leadsFor db cid = [l]) :
    requestHandoff db cid r s = (.ok cid r, dbAfterHandoffUpdate db cid conv l r s) := by
  unfold requestHandoff
  rw [hconv, hlead]
  rfl

/-! ## Claim C5 -/

/-- C5. Lead scoring function of handoff: with funnel stage negotiation or
closed_won the computed lead stage is hot exactly when the reason contains
"pronto" or "fechar" case-insensitively (score 80, hence ≥ 80 and within
70-100) and qualified (score 70) otherwise; consideration gives warm with
score 60; every other stage gives warm with score 50. -/
theorem c5_lead_scoring (stage : FunnelStage) (reason : String) :
    (stage = FunnelStage.negotiation ∨ stage = FunnelStage.closed_won →
      ((pyIn "pronto" (strLower reason) || pyIn "fechar" (strLower reason)) = true →
        (leadScore stage reason).1 = LeadStage.hot ∧ (leadScore stage reason).2 = 80)
      ∧ ((pyIn "pronto" (strLower reason) || pyIn "fechar" (strLower reason)) = false →
        (leadScore stage reason).1 = LeadStage.qualified ∧ (leadScore stage reason).2 = 70)
      ∧ 70 ≤ (leadScore stage reason).2 ∧ (leadScore stage reason).2 ≤ 100
      ∧ ((leadScore stage reason).1 = LeadStage.hot → 80 ≤ (leadScore stage reason).2))
    ∧ (stage = FunnelStage.consideration →
        (leadScore stage reason).1 = LeadStage.warm ∧ (leadScore stage reason).2 = 60)
    ∧ (stage ≠ FunnelStage.negotiation ∧ stage ≠ FunnelStage.closed_won ∧
        stage ≠ FunnelStage.consideration →
        (leadScore stage reason).1 = LeadStage.warm ∧ (leadScore stage reason).2 = 50) := by
  cases h : pyIn "pronto" (strLower reason) || pyIn "fechar" (strLower reason) <;>
    cases stage <;> simp_all [leadScore]

/-- C5 witness: concrete evaluation at funnel stage negotiation with a closing
reason ("Pronto para fechar"). -/
theorem c5_lead_scoring_witness :
    (FunnelStage.negotiation = FunnelStage.negotiation ∨
      FunnelStage.negotiation = FunnelStage.closed_won)
    ∧ ((pyIn "pronto" (strLower "Cliente Pronto para fechar") ||
        pyIn "fechar" (strLower "Cliente Pronto para fechar")) = true →
        (leadScore FunnelStage.negotiation "Cliente Pronto para fechar").1 = LeadStage.hot ∧
        (leadScore FunnelStage.negotiation "Cliente Pronto para fechar").2 = 80) :=
  ⟨Or.inl rfl, ((c5_lead_scoring FunnelStage.negotiation "Cliente Pronto para fechar").1
      (Or.inl rfl)).1⟩

/-! ## Claim C10 -/

/-- C10. Nameless users are never admin: a user with no stored name (NULL or
empty) fails `is_admin_user` whatever the configured keywords, so
`_get_agent` selects the sales persona for it. -/
theorem c10_nameless_never_admin (adminKeywords : List String) (u : UserR)
    (h : u.name = none ∨ u.name = some "") :
    isAdminUser adminKeywords (some u) = false ∧
    getAgent adminKeywords u = AgentKind.sales := by
  rcases h with h | h <;> simp [isAdminUser, getAgent, h]

/-- C10 witness: a concrete nameless user is routed to the sales persona even
with the default admin keywords configured. -/
theorem c10_nameless_never_admin_witness :
    (namelessUser.name = none ∨ namelessUser.name = some "")
    ∧ isAdminUser defaultAdminKeywords (some namelessUser) = false
    ∧ getAgent defaultAdminKeywords namelessUser = AgentKind.sales :=
  ⟨Or.inl rfl, c10_nameless_never_admin defaultAdminKeywords namelessUser (Or.inl rfl)⟩

/-! ## Claim C1 -/

/-- C1 (violated by the code; evaluation at the failing input). The spec
demands tenant-scoped identity resolution, but `get_or_create_user` filters by
`user_key` alone and `ChatService` carries no tenant at all: with tenant 1's
user stored for key "k", a request authenticated as tenant 2 resolving the
same key returns tenant 1's user row and overwrites its name - a cross-tenant
read and write. -/
theorem c1_cross_tenant_identity_leak :
    getOrCreateUser crossDB "k" (some "Mallory") =
      .ok ({ t1User with name := some "Mallory" }, dbWithSyncedName crossDB t1User "Mallory")
    ∧ t1User.tenantId = some 1
    ∧ (dbWithSyncedName crossDB t1User "Mallory").users =
        [{ t1User with name := some "Mallory" }] := by
  refine ⟨?_, rfl, ?_⟩ <;> rfl

/-! ## Claim C9 -/

/-- C9. Handoff not-found atomicity: when no stored conversation has the id,
`request_handoff` returns the "Conversation not found" error with the store
untouched; more generally every error return of the handoff leaves the store
unchanged (the raising paths roll back). -/
theorem c9_handoff_not_found_atomic (db : DB) (cid : Nat) (reason summary : String) :
    (convsWith db cid = [] →
      requestHandoff db cid reason summary = (.error "Conversation not found", db)) ∧
    (∀ e, (requestHandoff db cid reason summary).1 = HandoffResult.error e →
      (requestHandoff db cid reason summary).2 = db) := by
  constructor
  · intro h
    unfold requestHandoff
    rw [h]
    rfl
  · intro e he
    unfold requestHandoff at he ⊢
    cases hc : scalarOneOrNone (convsWith db cid) with
    | error e1 => rfl
    | ok oc =>
      cases oc with
      | none => rfl
      | some conv =>
        rw [hc] at he
        cases hl : scalarOneOrNone (leadsFor db cid) with
        | error e2 => rfl
        | ok ex =>
          rw [hl] at he
          simp at he

/-- C9 witness: on the empty store, a handoff for conversation 5 fails with
the not-found error and returns the store unchanged. -/
theorem c9_handoff_not_found_atomic_witness :
    convsWith emptyDB 5 = [] ∧
    requestHandoff emptyDB 5 "motivo" "resumo" =
      (.error "Conversation not found", emptyDB) :=
  ⟨rfl, (c9_handoff_not_found_atomic emptyDB 5 "motivo" "resumo").1 rfl⟩

/-! ## Claim C7 -/

/-- C7 counterexample: a tenant whose expiry timestamp (0) is already past is
accepted by `_validate_tenant_headers` - the function never reads
`expires_at` - while the claim requires a TenantInactive-class rejection for
a tenant past expiry even with status still active. -/
theorem c7_expiry_not_checked_counterexample :
    expiredTenant.status = TenantStatus.active ∧
    expiredTenant.isActive = true ∧
    expiredTenant.expiresAt = some 0 ∧
    validateTenantHeaders cexCheckpw [expiredTenant] (some "acme") (some "secret") =
      .ok expiredTenant := by
  refine ⟨rfl, rfl, rfl, ?_⟩
  rfl

/-- C7 amended: the failure taxonomy of multi-tenant resolution as
implemented - missing header (either one), unknown slug, status not active,
deactivated flag, and credential hash mismatch - with no expiry check
anywhere in the path. -/
theorem c7_amended_failure_taxonomy (checkpw : String → String → Bool)
    (tenants : List TenantR) (slugHeader apiKeyHeader : Option String) :
    ((slugHeader = none ∨ slugHeader = some "") →
      validateTenantHeaders checkpw tenants slugHeader apiKeyHeader =
        .missingTenantHeader) ∧
    (∀ slug, slugHeader = some slug → slug ≠ "" →
      (apiKeyHeader = none ∨ apiKeyHeader = some "") →
      validateTenantHeaders checkpw tenants slugHeader apiKeyHeader =
        .missingApiKeyHeader) ∧
    (∀ slug key, slugHeader = some slug → slug ≠ "" →
      apiKeyHeader = some key → key ≠ "" →
      tenants.filter (fun t => t.slug == slug) = [] →
      validateTenantHeaders checkpw tenants slugHeader apiKeyHeader =
        .tenantNotFound slug) ∧
    (∀ slug key t, slugHeader = some slug → slug ≠ "" →
      apiKeyHeader = some key → key ≠ "" →
      tenants.filter (fun x => x.slug == slug) = [t] →
      t.status ≠ TenantStatus.active →
      validateTenantHeaders checkpw tenants slugHeader apiKeyHeader =
        .tenantNotActive slug) ∧
    (∀ slug key t, slugHeader = some slug → slug ≠ "" →
      apiKeyHeader = some key → key ≠ "" →
      tenants.filter (fun x => x.slug == slug) = [t] →
      t.status = TenantStatus.active → t.isActive = false →
      validateTenantHeaders checkpw tenants slugHeader apiKeyHeader =
        .tenantDeactivated slug) ∧
    (∀ slug key t h, slugHeader = some slug → slug ≠ "" →
      apiKeyHeader = some key → key ≠ "" →
      tenants.filter (fun x => x.slug == slug) = [t] →
      t.status = TenantStatus.active → t.isActive = true →
      t.apiKeyHash = some h → checkpw key h = false →
      validateTenantHeaders checkpw tenants slugHeader apiKeyHeader =
        .invalidApiKey) := by
  refine ⟨?_, ?_, ?_, ?_, ?_, ?_⟩
  · intro h
    rcases h with h | h <;> simp [validateTenantHeaders, h]
  · intro slug hs hne hk
    subst hs
    rcases hk with hk | hk <;> simp [validateTenantHeaders, hne, hk]
  · intro slug key hs hne hk hkne hfil
    subst hs; subst hk
    simp [validateTenantHeaders, hne, hkne, hfil, scalarOneOrNone]
  · intro slug key t hs hne hk hkne hfil hst
    subst hs; subst hk
    simp [validateTenantHeaders, hne, hkne, hfil, scalarOneOrNone, hst]
  · intro slug key t hs hne hk hkne hfil hst hact
    subst hs; subst hk
    simp [validateTenantHeaders, hne, hkne, hfil, scalarOneOrNone, hst, hact]
  · intro slug key t h hs hne hk hkne hfil hst hact hhash hcp
    subst hs; subst hk
    simp [validateTenantHeaders, hne, hkne, hfil, scalarOneOrNone, hst, hact, hhash, hcp]

/-- C7 amended witness: concrete missing-header and credential-mismatch
evaluations through the amended taxonomy. -/
theorem c7_amended_failure_taxonomy_witness :
    ((none : Option String) = none ∨ (none : Option String) = some "") ∧
    validateTenantHeaders cexCheckpw [expiredTenant] none (some "secret") =
      .missingTenantHeader ∧
    validateTenantHeaders cexCheckpw [expiredTenant] (some "acme") (some "wrong") =
      .invalidApiKey :=
  ⟨Or.inl rfl,
    (c7_amended_failure_taxonomy cexCheckpw [expiredTenant] none (some "secret")).1
      (Or.inl rfl),
    (c7_amended_failure_taxonomy cexCheckpw [expiredTenant] (some "acme")
        (some "wrong")).2.2.2.2.2 "acme" "wrong" expiredTenant "HASH" rfl (by decide)
      rfl (by decide) rfl rfl rfl rfl (by decide)⟩

/-! ## Claim C3 -/

/-- C3 (violated by the code; evaluation at the failing input). With a valid
status token and an invalid funnel-stage token, `update_conversation_status`
assigns the parsed status to the session-loaded row and then returns the
invalid-funnel error without rollback: the committed store is unchanged at
return time, but the status assignment is left pending in the session, and
the enclosing request's later commit (message persistence, or the request
teardown) persists it - a partial application, contrary to the claim's
zero-mutation / byte-for-byte-unchanged guarantee. -/
theorem c3_partial_status_write_on_invalid_funnel :
    (updateConversationStatus (cleanSession toolDB) 1
        (some "converted") (some "bogus")).1 =
      UpdateResult.invalidFunnelStage "bogus" ∧
    (updateConversationStatus (cleanSession toolDB) 1
        (some "converted") (some "bogus")).2.db = toolDB ∧
    convsWith (updateConversationStatus (cleanSession toolDB) 1
        (some "converted") (some "bogus")).2.dirty 1 =
      [{ activeConv with status := ConversationStatus.converted }] ∧
    convsWith (sessionCommit (updateConversationStatus (cleanSession toolDB) 1
        (some "converted") (some "bogus")).2).db 1 =
      [{ activeConv with status := ConversationStatus.converted }] ∧
    activeConv.status = ConversationStatus.active := by
  refine ⟨rfl, rfl, rfl, rfl, rfl⟩

/-! ## Claim C2 -/

/-- C2. Gate check: with the conversation in status awaiting_human, the
inbound message is persisted as a user message, no agent is selected or
invoked (the returned flag is false), the caller receives the fixed
transferred notice interpolating the stored handoff reason, and the stored
conversations (hence status and funnel stage) are unchanged by the request. -/
theorem c2_awaiting_human_gate (agent : DB → String → AgentResult) (db : DB)
    (message userKey : String) (userName? : Option String) (cid : Nat)
    (user : UserR) (db1 : DB) (conv : ConversationR)
    (h1 : getOrCreateUser db userKey userName? = .ok (user, db1))
    (h2 : convsWith db1 cid = [conv])
    (h3 : conv.status = ConversationStatus.awaiting_human) :
    processMessage agent db message userKey (some cid) userName? =
      .ok (blockedOutcome user conv,
        saveMessage db1 conv.id MessageRole.user message, false) ∧
    (saveMessage db1 conv.id MessageRole.user message).conversations =
      db.conversations ∧
    (saveMessage db1 conv.id MessageRole.user message).messages =
      db.messages ++
        [{ conversationId := conv.id, role := MessageRole.user, content := message }] := by
  obtain ⟨hc, hm, -⟩ := getOrCreateUser_tables db userKey userName? user db1 h1
  have hconv : getOrCreateConversation db1 user.id (some cid) = .ok (conv, db1) := by
    simp [getOrCreateConversation, h2, scalarOneOrNone]
  refine ⟨?_, ?_, ?_⟩
  · simp [processMessage, h1, hconv, h3, statusValue, blockedOutcome]
  · simp [saveMessage, hc]
  · simp [saveMessage, hm]

/-- C2 witness: concrete blocked conversation - the message lands as a user
row, the fixed notice with the stored reason comes back, the agent flag is
false and the conversation rows are untouched. -/
theorem c2_awaiting_human_gate_witness :
    getOrCreateUser gateDB "uk" none = .ok (gateUser, gateDB) ∧
    convsWith gateDB 3 = [gateConv] ∧
    gateConv.status = ConversationStatus.awaiting_human ∧
    processMessage noToolAgent gateDB "oi" "uk" (some 3) none =
      .ok (blockedOutcome gateUser gateConv,
        saveMessage gateDB 3 MessageRole.user "oi", false) :=
  ⟨rfl, rfl, rfl,
    (c2_awaiting_human_gate noToolAgent gateDB "oi" "uk" none 3 gateUser gateDB
      gateConv rfl rfl rfl).1⟩

/-! ## Claim C6 -/

/-- C6. Identity resolution order and tie-break: exact key match first (with
the supplied name synced onto the found row); failing that, the
case-insensitive substring name match reuses the unique hit, takes the
most recently created of several (an element of the matches attaining the
maximal creation timestamp), and creates a fresh user when nothing matches. -/
theorem c6_identity_resolution_order (db : DB) (key nm : String) (hnm : nm ≠ "") :
    (∀ u, db.users.filter (fun v => v.userKey == key) = [u] →
      getOrCreateUser db key (some nm) =
        .ok ({ u with name := some nm }, dbWithSyncedName db u nm)) ∧
    (db.users.filter (fun v => v.userKey == key) = [] →
      (∀ u0, db.users.filter (nameMatches nm) = [u0] →
        getOrCreateUser db key (some nm) =
          .ok ({ u0 with name := some nm }, dbWithSyncedName db u0 nm)) ∧
      (∀ u0 u1 us, db.users.filter (nameMatches nm) = u0 :: u1 :: us →
        getOrCreateUser db key (some nm) =
          .ok ({ maxByCreated u0 (u1 :: us) with name := some nm },
            dbWithSyncedName db (maxByCreated u0 (u1 :: us)) nm) ∧
        maxByCreated u0 (u1 :: us) ∈ u0 :: u1 :: us ∧
        (∀ v ∈ u0 :: u1 :: us,
          v.createdAt ≤ (maxByCreated u0 (u1 :: us)).createdAt)) ∧
      (db.users.filter (nameMatches nm) = [] →
        getOrCreateUser db key (some nm) =
          .ok (newUser db key (some nm), dbWithNewUser db key (some nm)))) := by
  refine ⟨?_, fun hkey => ⟨?_, ?_, ?_⟩⟩
  · intro u hu
    simp [getOrCreateUser, hu, scalarOneOrNone, dbWithSyncedName]
  · intro u0 h0
    simp [getOrCreateUser, hkey, h0, scalarOneOrNone, hnm, dbWithSyncedName]
  · intro u0 u1 us hmulti
    refine ⟨?_, maxByCreated_mem (u1 :: us) u0, fun v hv => maxByCreated_ge (u1 :: us) u0 v hv⟩
    simp [getOrCreateUser, hkey, hmulti, scalarOneOrNone, hnm, dbWithSyncedName]
  · intro hnone
    simp [getOrCreateUser, hkey, hnone, scalarOneOrNone, hnm, dbWithNewUser]

/-- C6 witness: two users named "Ana Silva" created at times 1 < 2; a lookup
by that name under a fresh key returns the one created at time 2. -/
theorem c6_identity_resolution_order_witness :
    ("Ana Silva" : String) ≠ "" ∧
    anaDB.users.filter (fun v => v.userKey == "wa_3") = [] ∧
    anaDB.users.filter (nameMatches "Ana Silva") = [ana1, ana2] ∧
    maxByCreated ana1 [ana2] = ana2 ∧
    getOrCreateUser anaDB "wa_3" (some "Ana Silva") =
      .ok ({ maxByCreated ana1 [ana2] with name := some "Ana Silva" },
        dbWithSyncedName anaDB (maxByCreated ana1 [ana2]) "Ana Silva") :=
  ⟨by decide, rfl, rfl, rfl,
    (((c6_identity_resolution_order anaDB "wa_3" "Ana Silva" (by decide)).2 rfl).2.1
      ana1 ana2 [] rfl).1⟩

/-! ## Claim C8 -/

/-- C8 counterexample: a handoff applied to a conversation already in the
terminal status converted succeeds and moves it to awaiting_human - converted
is not a sink and the handoff is not restricted to non-terminal statuses,
contrary to the claim. -/
theorem c8_terminal_not_sink_counterexample :
    terminalConv.status = ConversationStatus.converted ∧
    (requestHandoff terminalDB 1 "motivo" "resumo").1 = HandoffResult.ok 1 "motivo" ∧
    convsWith (requestHandoff terminalDB 1 "motivo" "resumo").2 1 =
      [handoffConversation terminalConv "motivo" "resumo" 9] ∧
    (handoffConversation terminalConv "motivo" "resumo" 9).status =
      ConversationStatus.awaiting_human := by
  refine ⟨rfl, ?_, ?_, rfl⟩ <;> rfl

/-- C8 amended: the core defines no terminal-state guard - a recognized
status token is applied by the status update whatever the current status
(converted/lost/abandoned admit outgoing transitions), and a handoff on any
stored conversation, terminal statuses included, sets status to
awaiting_human. -/
theorem c8_amended_no_terminal_guard (db : DB) (cid : Nat)
    (reason summary stok : String) (conv : ConversationR)
    (st : ConversationStatus)
    (hconv : convsWith db cid = [conv])
    (hleads : leadsFor db cid = [] ∨ ∃ l, leadsFor db cid = [l])
    (hst : parseConversationStatus stok = some st) :
    convsWith (requestHandoff db cid reason summary).2 cid =
      [handoffConversation conv reason summary db.now] ∧
    (handoffConversation conv reason summary db.now).status =
      ConversationStatus.awaiting_human ∧
    (updateConversationStatus (cleanSession db) cid (some stok) none).1 =
      UpdateResult.ok (statusValue st) (funnelValue conv.funnelStage) ∧
    convsWith (updateConversationStatus (cleanSession db) cid (some stok) none).2.db cid =
      [{ conv with status := st }] := by
  have hmem : conv ∈ convsWith db cid := by
    rw [hconv]
    exact List.mem_singleton.mpr rfl
  have hcid : conv.id = cid := by
    simpa using (List.mem_filter.mp hmem).2
  have hne : stok ≠ "" := by
    intro h
    rw [h] at hst
    exact Option.noConfusion hst
  have hupd : updateConversationStatus (cleanSession db) cid (some stok) none =
      (UpdateResult.ok (statusValue st) (funnelValue conv.funnelStage),
       sessionCommit { db := db, dirty := assignConv db cid { conv with status := st } }) := by
    have h1 : applyStatus conv (some stok) = .ok { conv with status := st } := by
      simp [applyStatus, hne, hst]
    simp [updateConversationStatus, cleanSession, hconv, scalarOneOrNone, h1, applyFunnel,
      sessionCommit, assignConv]
  have hconvs : (requestHandoff db cid reason summary).2.conversations =
      db.conversations.map
        (fun c => if c.id == cid then handoffConversation conv reason summary db.now else c) := by
    rcases hleads with h | ⟨l, h⟩
    · rw [requestHandoff_create db cid reason summary conv hconv h]
      rfl
    · rw [requestHandoff_update db cid reason summary conv l hconv h]
      rfl
  refine ⟨?_, rfl, ?_, ?_⟩
  · show (requestHandoff db cid reason summary).2.conversations.filter _ = _
    rw [hconvs]
    exact filter_map_replace _ _ (by simp [handoffConversation, hcid])
      db.conversations conv hconv
  · rw [hupd]
  · rw [hupd]
    show (db.conversations.map _).filter _ = _
    exact filter_map_replace _ _ (by simp [hcid]) db.conversations conv hconv

/-- C8 amended witness: on the converted fixture, the handoff moves the row to
awaiting_human and a status update with the token "active" moves it back out
of the terminal status. -/
theorem c8_amended_no_terminal_guard_witness :
    convsWith terminalDB 1 = [terminalConv] ∧
    parseConversationStatus "active" = some ConversationStatus.active ∧
    convsWith (requestHandoff terminalDB 1 "m" "s").2 1 =
      [handoffConversation terminalConv "m" "s" 9] ∧
    (updateConversationStatus (cleanSession terminalDB) 1 (some "active") none).1 =
      UpdateResult.ok "active" "closed_won" ∧
    convsWith (updateConversationStatus (cleanSession terminalDB) 1 (some "active") none).2.db 1 =
      [{ terminalConv with status := ConversationStatus.active }] := by
  have h := c8_amended_no_terminal_guard terminalDB 1 "m" "s" "active" terminalConv
    ConversationStatus.active rfl (Or.inl rfl) rfl
  exact ⟨rfl, rfl, h.1, h.2.2.1, h.2.2.2⟩

/-! ## Claim C4 -/

/-- C4. Handoff lead upsert is duplicate-free and score-monotonic: starting
from a conversation with no lead, two successive handoffs leave exactly one
lead row for the conversation, the second application updates the first's row
in place (same id, same table length - no insert), the stored score after the
first application is the computed score and after the second is the max of
the previous stored score and the newly computed one (hence non-decreasing),
while stage and next-action carry the latest application's values. -/
theorem c4_handoff_upsert_idempotent (db : DB) (cid : Nat)
    (r1 s1 r2 s2 : String) (conv : ConversationR)
    (hconv : convsWith db cid = [conv])
    (hnolead : leadsFor db cid = [])
    (hfresh : ∀ l ∈ db.leads, l.id < db.freshId) :
    ∃ l1 l2 : LeadR,
      leadsFor (requestHandoff db cid r1 s1).2 cid = [l1] ∧
      leadsFor (requestHandoff (requestHandoff db cid r1 s1).2 cid r2 s2).2 cid = [l2] ∧
      (requestHandoff (requestHandoff db cid r1 s1).2 cid r2 s2).2.leads.length =
        (requestHandoff db cid r1 s1).2.leads.length ∧
      l2.id = l1.id ∧
      l1.score = (leadScore conv.funnelStage r1).2 ∧
      l2.score = max l1.score (leadScore conv.funnelStage r2).2 ∧
      l1.score ≤ l2.score ∧
      l2.stage = (leadScore conv.funnelStage r2).1 ∧
      l2.nextAction = some (handoffNextAction r2) := by
  have hmem : conv ∈ convsWith db cid := by
    rw [hconv]
    exact List.mem_singleton.mpr rfl
  have hcid : conv.id = cid := by
    simpa using (List.mem_filter.mp hmem).2
  set nl := newLead db cid conv (leadScore conv.funnelStage r1) r1 with hnl
  set conv1 := handoffConversation conv r1 s1 db.now with hco1
  set db1 := dbAfterHandoffCreate db cid conv r1 s1 with hdb1
  have h1 : requestHandoff db cid r1 s1 = (.ok cid r1, db1) :=
    requestHandoff_create db cid r1 s1 conv hconv hnolead
  have hstep1 : (requestHandoff db cid r1 s1).2 = db1 := by rw [h1]
  have hdb1leads : db1.leads = db.leads ++ [nl] := rfl
  have hl1 : leadsFor db1 cid = [nl] := by
    unfold leadsFor
    rw [hdb1leads, List.filter_append]
    have hfe : db.leads.filter (fun l => l.conversationId == cid) = [] := hnolead
    rw [hfe]
    simp [hnl, newLead]
  have hc1 : convsWith db1 cid = [conv1] := by
    unfold convsWith
    have hdc : db1.conversations =
        db.conversations.map (fun c => if c.id == cid then conv1 else c) := rfl
    rw [hdc]
    exact filter_map_replace _ _ (by simp [hco1, handoffConversation, hcid])
      db.conversations conv hconv
  set l2v := updatedLead nl (leadScore conv1.funnelStage r2) conv1.interestedPlanId r2
    with hl2v
  have h2 : requestHandoff db1 cid r2 s2 =
      (.ok cid r2, dbAfterHandoffUpdate db1 cid conv1 nl r2 s2) :=
    requestHandoff_update db1 cid r2 s2 conv1 nl hc1 hl1
  have hstep2 : (requestHandoff db1 cid r2 s2).2 = dbAfterHandoffUpdate db1 cid conv1 nl r2 s2 := by
    rw [h2]
  have hid : ∀ x ∈ db1.leads, x.id = nl.id → x = nl := by
    intro x hx hxid
    rw [hdb1leads] at hx
    rcases List.mem_append.mp hx with hx | hx
    · have hlt := hfresh x hx
      have hnid : nl.id = db.freshId := rfl
      omega
    · simpa using hx
  have hl2 : leadsFor (dbAfterHandoffUpdate db1 cid conv1 nl r2 s2) cid = [l2v] := by
    unfold leadsFor
    have hdl : (dbAfterHandoffUpdate db1 cid conv1 nl r2 s2).leads =
        db1.leads.map (fun x => if x.id == nl.id then l2v else x) := rfl
    rw [hdl]
    exact lead_filter_map_replace cid nl l2v rfl rfl db1.leads hl1 hid
  refine ⟨nl, l2v, ?_, ?_, ?_, rfl, rfl, rfl, ?_, rfl, rfl⟩
  · rw [hstep1]
    exact hl1
  · rw [hstep1, hstep2]
    exact hl2
  · rw [hstep1, hstep2]
    exact List.length_map _ _
  · exact le_max_left _ _

/-- C4 witness: two concrete handoffs on the negotiation fixture (first with a
closing reason, then a weaker one): one lead row, same id, score stays 80 =
max(80, 70), stage and next-action from the second application. -/
theorem c4_handoff_upsert_idempotent_witness :
    convsWith toolDB 1 = [activeConv] ∧
    leadsFor toolDB 1 = [] ∧
    (∀ l ∈ toolDB.leads, l.id < toolDB.freshId) ∧
    (∃ l1 l2 : LeadR,
      leadsFor (requestHandoff toolDB 1 "pronto para fechar" "resumo um").2 1 = [l1] ∧
      leadsFor (requestHandoff
        (requestHandoff toolDB 1 "pronto para fechar" "resumo um").2
        1 "duvidas adicionais" "resumo dois").2 1 = [l2] ∧
      (requestHandoff (requestHandoff toolDB 1 "pronto para fechar" "resumo um").2
        1 "duvidas adicionais" "resumo dois").2.leads.length =
        (requestHandoff toolDB 1 "pronto para fechar" "resumo um").2.leads.length ∧
      l2.id = l1.id ∧
      l1.score = (leadScore activeConv.funnelStage "pronto para fechar").2 ∧
      l2.score = max l1.score (leadScore activeConv.funnelStage "duvidas adicionais").2 ∧
      l1.score ≤ l2.score ∧
      l2.stage = (leadScore activeConv.funnelStage "duvidas adicionais").1 ∧
      l2.nextAction = some (handoffNextAction "duvidas adicionais")) :=
  ⟨rfl, rfl, fun l hl => absurd hl (List.not_mem_nil l),
    c4_handoff_upsert_idempotent toolDB 1 "pronto para fechar" "resumo um"
      "duvidas adicionais" "resumo dois" activeConv rfl rfl
      (fun l hl => absurd hl (List.not_mem_nil l))⟩
